import Mathlib

/-!
Shallow embedding of `traffic_controller.py` from the two-lane traffic
management repository: the VL53L0X sensor wrapper, the per-lane monitor
(edge detection, vehicle counting, speed estimation) and the
density-based round-robin traffic controller state machine.

Timestamps, distances and speeds are modelled as rationals (Python
floats); vehicle counts as naturals (Python non-negative ints).  A raw
hardware range read is modelled as `Option ℚ`: `none` stands for the
read raising an exception, which `get_distance` absorbs.  One iteration
of the `control_loop` `while` body is the pure function
`TrafficController.tick`, parameterised by the tick's wall-clock time
and the two raw sensor read outcomes.
-/

set_option autoImplicit false

namespace Traffic

/-- Signal states of the controller: the string field `current_signal`
takes exactly the values "RED", "GREEN_A", "GREEN_B". -/
inductive Signal where
  | RED : Signal
  | GREEN_A : Signal
  | GREEN_B : Signal
deriving DecidableEq, Repr

/-- The `current_lane` field takes exactly the values 'A' and 'B'. -/
inductive Lane where
  | A : Lane
  | B : Lane
deriving DecidableEq, Repr

/-- `VL53L0XSensor`: the fields of the Python wrapper that the decision
logic reads.  `hasHardware` models whether `self.sensor` is an actual
device object (`True`) or `None` (init failed / simulation mode). -/
structure VL53L0XSensor where
  lane_width_cm : ℚ
  baseline_distance : ℚ
  threshold_cm : ℚ
  hasHardware : Bool
deriving DecidableEq, Repr

namespace VL53L0XSensor

/-- `get_distance`: without hardware return the baseline; with hardware
return the range read, falling back to the baseline when the read
raises (`reading = none`). -/
def get_distance (s : VL53L0XSensor) (reading : Option ℚ) : ℚ :=
  if s.hasHardware = false then s.baseline_distance
  else
    match reading with
    | some d => d
    | none => s.baseline_distance

/-- `is_vehicle_present`: the distance drop below baseline must exceed
the threshold.  (The Python `distance is None` guard is unreachable:
`get_distance` always returns a number because `baseline_distance` is
set by `__init__` on every path.) -/
def is_vehicle_present (s : VL53L0XSensor) (reading : Option ℚ) : Bool :=
  let distance := s.get_distance reading
  decide (s.baseline_distance - distance > s.threshold_cm)

/-- The sensor produced by `__init__` when hardware is absent
(simulation mode): `baseline_distance = 100`, `threshold_cm = 15`. -/
def initSim (lane_width_cm : ℚ) : VL53L0XSensor :=
  { lane_width_cm := lane_width_cm
    baseline_distance := 100
    threshold_cm := 15
    hasHardware := false }

end VL53L0XSensor

/-- `deque(maxlen=20)` append: add on the right, evict from the left
once the length exceeds 20. -/
def dequeAppend20 (xs : List ℚ) (x : ℚ) : List ℚ :=
  let ys := xs ++ [x]
  if ys.length > 20 then ys.drop (ys.length - 20) else ys

/-- `LaneMonitor` state. `entry_time = none` models Python `None`. -/
structure LaneMonitor where
  name : String
  sensor : VL53L0XSensor
  vehicle_count : ℕ
  speed_readings : List ℚ
  last_vehicle_time : ℚ
  vehicle_present : Bool
  entry_time : Option ℚ
deriving DecidableEq, Repr

namespace LaneMonitor

/-- `LaneMonitor.__init__`. -/
def init (name : String) (sensor : VL53L0XSensor) : LaneMonitor :=
  { name := name
    sensor := sensor
    vehicle_count := 0
    speed_readings := []
    last_vehicle_time := 0
    vehicle_present := false
    entry_time := none }

/-- The speed-estimation block of the falling edge (the Python
`if self.entry_time:` body; `entry_time` truthiness gives the `t ≠ 0`
guard): estimate `lane_width / blocking_time` in km/h and append it
when it lies in the 10–60 band.  Only `speed_readings` may change. -/
def fallingEdgeSpeed (m : LaneMonitor) (now : ℚ) : LaneMonitor :=
  match m.entry_time with
  | some t =>
    if t ≠ 0 then
      let blocking_time := now - t
      if blocking_time > 0 then
        let speed_cms := m.sensor.lane_width_cm / blocking_time
        let speed_kmh := speed_cms * (36 / 1000)
        if 10 ≤ speed_kmh ∧ speed_kmh ≤ 60 then
          { m with speed_readings := dequeAppend20 m.speed_readings speed_kmh }
        else m
      else m
    else m
  | none => m

/-- `update()`: one poll.  `reading` is the raw range outcome handed to
the sensor, `now` is `time.time()`.  Rising edge records entry and
counts the vehicle; falling edge estimates the speed and then clears
presence and entry unconditionally. -/
def update (m : LaneMonitor) (reading : Option ℚ) (now : ℚ) : LaneMonitor :=
  let is_present := m.sensor.is_vehicle_present reading
  if is_present = true ∧ m.vehicle_present = false then
    { m with entry_time := some now
             vehicle_present := true
             vehicle_count := m.vehicle_count + 1
             last_vehicle_time := now }
  else if is_present = false ∧ m.vehicle_present = true then
    { m.fallingEdgeSpeed now with vehicle_present := false, entry_time := none }
  else m

/-- `get_average_speed()`: mean of the readings, `0` when empty. -/
def get_average_speed (m : LaneMonitor) : ℚ :=
  if m.speed_readings = [] then 0
  else m.speed_readings.sum / m.speed_readings.length

/-- `reset_count()`: zero the vehicle count, touch nothing else. -/
def reset_count (m : LaneMonitor) : LaneMonitor :=
  { m with vehicle_count := 0 }

end LaneMonitor

/-- An externally driven operation on a `LaneMonitor`: one `update()`
poll (with its raw range-read outcome and its `time.time()` stamp) or
one `reset_count()` call. -/
inductive LaneOp where
  | poll : Option ℚ → ℚ → LaneOp
  | reset : LaneOp
deriving DecidableEq, Repr

/-- Apply one operation to a lane monitor. -/
def LaneMonitor.applyOp (m : LaneMonitor) : LaneOp → LaneMonitor
  | LaneOp.poll r now => m.update r now
  | LaneOp.reset => m.reset_count

/-- Apply a sequence of operations, oldest first. -/
def LaneMonitor.applyOps (m : LaneMonitor) (ops : List LaneOp) : LaneMonitor :=
  ops.foldl LaneMonitor.applyOp m

/-- A sensor whose hardware initialised (calibrated to baseline 100,
threshold 15): used to drive rising/falling edges in witnesses. -/
def sensorLive : VL53L0XSensor :=
  { lane_width_cm := 4
    baseline_distance := 100
    threshold_cm := 15
    hasHardware := true }

/-- `TrafficController` state (the fields the control loop reads and
writes).  `min_green_time`, `max_green_time`, `idle_timeout` are the
configuration constants set by `__init__` (10, 30, 90). -/
structure TrafficController where
  lane_a : LaneMonitor
  lane_b : LaneMonitor
  current_signal : Signal
  signal_start_time : ℚ
  current_lane : Lane
  min_green_time : ℚ
  max_green_time : ℚ
  idle_timeout : ℚ
  last_activity_time : ℚ
deriving DecidableEq, Repr

namespace TrafficController

/-- `TrafficController.__init__` in simulation mode (neither sensor
initialises): both sensors fall back to baseline 100, lane width 4 cm;
signal RED, lane A eligible, constants 10/30/90. -/
def init (now : ℚ) : TrafficController :=
  { lane_a := LaneMonitor.init "Lane A" (VL53L0XSensor.initSim 4)
    lane_b := LaneMonitor.init "Lane B" (VL53L0XSensor.initSim 4)
    current_signal := Signal.RED
    signal_start_time := now
    current_lane := Lane.A
    min_green_time := 10
    max_green_time := 30
    idle_timeout := 90
    last_activity_time := now }

/-- `calculate_green_time`: `min(min_green_time + 2 * count, max_green_time)`. -/
def calculate_green_time (tc : TrafficController) (vehicle_count : ℕ) : ℚ :=
  let green_time := tc.min_green_time + 2 * (vehicle_count : ℚ)
  min green_time tc.max_green_time

/-- `update_sensors()`: update both lane monitors with this tick's raw
read outcomes. -/
def update_sensors (tc : TrafficController) (ra rb : Option ℚ) (now : ℚ) : TrafficController :=
  { tc with lane_a := tc.lane_a.update ra now
            lane_b := tc.lane_b.update rb now }

/-- Activity tracking at the top of a loop iteration: refresh
`last_activity_time` when either lane has a nonzero count. -/
def track_activity (tc : TrafficController) (now : ℚ) : TrafficController :=
  if tc.lane_a.vehicle_count > 0 ∨ tc.lane_b.vehicle_count > 0 then
    { tc with last_activity_time := now }
  else tc

/-- Whether this iteration takes the idle-timeout branch
(`idle_duration > idle_timeout`, after activity tracking). -/
def idleBranch (tc : TrafficController) (now : ℚ) : Prop :=
  now - tc.last_activity_time > tc.idle_timeout

instance (tc : TrafficController) (now : ℚ) : Decidable (tc.idleBranch now) :=
  inferInstanceAs (Decidable (_ > _))

/-- The lock-protected block of the GREEN_A expiry transition:
`current_signal = "RED"; current_lane = 'B'` under `self.lock`.  The
subsequent `self.lane_a.reset_count()` is OUTSIDE the `with self.lock`
block in the source. -/
def greenAExpiryLocked (tc : TrafficController) : TrafficController :=
  { tc with current_signal := Signal.RED, current_lane := Lane.B }

/-- The statement after the lock is released on GREEN_A expiry:
`self.lane_a.reset_count()`. -/
def greenAExpiryReset (tc : TrafficController) : TrafficController :=
  { tc with lane_a := tc.lane_a.reset_count }

/-- Lock-protected block of the GREEN_B expiry transition. -/
def greenBExpiryLocked (tc : TrafficController) : TrafficController :=
  { tc with current_signal := Signal.RED, current_lane := Lane.A }

/-- `self.lane_b.reset_count()`, executed after the lock is released. -/
def greenBExpiryReset (tc : TrafficController) : TrafficController :=
  { tc with lane_b := tc.lane_b.reset_count }

/-- The state-machine part of one loop iteration: the idle check and
transition table, applied after `update_sensors` and activity
tracking. -/
def state_machine (tc : TrafficController) (now : ℚ) : TrafficController :=
  if tc.idleBranch now then
    if tc.current_signal ≠ Signal.RED then
      { tc with current_signal := Signal.RED }
    else tc
  else
    match tc.current_signal with
    | Signal.RED =>
      match tc.current_lane with
      | Lane.A =>
        if tc.lane_a.vehicle_count > 0 then
          { tc with current_signal := Signal.GREEN_A, signal_start_time := now }
        else
          { tc with current_lane := Lane.B }
      | Lane.B =>
        if tc.lane_b.vehicle_count > 0 then
          { tc with current_signal := Signal.GREEN_B, signal_start_time := now }
        else
          { tc with current_lane := Lane.A }
    | Signal.GREEN_A =>
      let green_time := tc.calculate_green_time tc.lane_a.vehicle_count
      let elapsed := now - tc.signal_start_time
      if elapsed ≥ green_time then
        greenAExpiryReset (greenAExpiryLocked tc)
      else tc
    | Signal.GREEN_B =>
      let green_time := tc.calculate_green_time tc.lane_b.vehicle_count
      let elapsed := now - tc.signal_start_time
      if elapsed ≥ green_time then
        greenBExpiryReset (greenBExpiryLocked tc)
      else tc

/-- One full iteration of the `control_loop` `while` body: read both
sensors, track activity, then run the idle check and state machine. -/
def tick (tc : TrafficController) (now : ℚ) (ra rb : Option ℚ) : TrafficController :=
  ((tc.update_sensors ra rb now).track_activity now).state_machine now

/-- Iterate `tick` over a schedule of (time, read A, read B) triples. -/
def ticks (tc : TrafficController) : List (ℚ × Option ℚ × Option ℚ) → TrafficController
  | [] => tc
  | e :: rest => (tc.tick e.1 e.2.1 e.2.2).ticks rest

/-- The snapshot returned by `get_current_state` (lane counts and
average speeds plus the signal), taken under the lock. -/
structure Snapshot where
  laneA_count : ℕ
  laneA_speed : ℚ
  laneB_count : ℕ
  laneB_speed : ℚ
  signal : Signal
deriving DecidableEq, Repr

/-- `get_current_state()`: a consistent copy of the shared state, read
while holding `self.lock`. -/
def get_current_state (tc : TrafficController) : Snapshot :=
  { laneA_count := tc.lane_a.vehicle_count
    laneA_speed := tc.lane_a.get_average_speed
    laneB_count := tc.lane_b.vehicle_count
    laneB_speed := tc.lane_b.get_average_speed
    signal := tc.current_signal }

end TrafficController

/-! ### Concrete states used by the claim witnesses -/

/-- A lane monitor on a falling edge after a 1 s occlusion, 4 cm lane
width: the demo input for the first C3 boundary case. -/
def laneDemoSlow : LaneMonitor :=
  { LaneMonitor.init "Lane A" (VL53L0XSensor.initSim 4) with
      vehicle_count := 1
      vehicle_present := true
      entry_time := some 1 }

/-- A lane monitor whose falling edge at `now = 10` yields exactly
10 km/h (lane width 2500 cm over 9 s). -/
def laneDemoTen : LaneMonitor :=
  { LaneMonitor.init "Lane A" (VL53L0XSensor.initSim 2500) with
      vehicle_count := 1
      vehicle_present := true
      entry_time := some 1 }

/-- A lane monitor whose falling edge at `now = 23/5` yields exactly
9.99 km/h (lane width 999 cm over 3.6 s). -/
def laneDemoAlmostTen : LaneMonitor :=
  { LaneMonitor.init "Lane A" (VL53L0XSensor.initSim 999) with
      vehicle_count := 1
      vehicle_present := true
      entry_time := some 1 }

/-- A controller 13 s into a GREEN_A phase whose lane-A count has grown
to 5 (live green allotment 20 s): demo state for claim C2. -/
def greenDemoA : TrafficController :=
  { TrafficController.init 0 with
      current_signal := Signal.GREEN_A
      lane_a := { LaneMonitor.init "Lane A" (VL53L0XSensor.initSim 4) with vehicle_count := 5 } }

/-- A controller 20 s into a GREEN_A phase with 3 queued vehicles
(allotment 16 s, so expired) and one stored speed reading: demo state
for the green→red transition claims. -/
def greenDemoExpired : TrafficController :=
  { TrafficController.init 0 with
      current_signal := Signal.GREEN_A
      lane_a := { LaneMonitor.init "Lane A" (VL53L0XSensor.initSim 4) with
                    vehicle_count := 3
                    speed_readings := [25] } }

/-! ### Helper lemmas about the loop stages -/

namespace TrafficController

theorem update_sensors_frame (tc : TrafficController) (ra rb : Option ℚ) (now : ℚ) :
    (tc.update_sensors ra rb now).current_signal = tc.current_signal ∧
    (tc.update_sensors ra rb now).current_lane = tc.current_lane ∧
    (tc.update_sensors ra rb now).signal_start_time = tc.signal_start_time ∧
    (tc.update_sensors ra rb now).last_activity_time = tc.last_activity_time ∧
    (tc.update_sensors ra rb now).idle_timeout = tc.idle_timeout ∧
    (tc.update_sensors ra rb now).min_green_time = tc.min_green_time ∧
    (tc.update_sensors ra rb now).max_green_time = tc.max_green_time :=
  ⟨rfl, rfl, rfl, rfl, rfl, rfl, rfl⟩

theorem track_activity_frame (tc : TrafficController) (now : ℚ) :
    (tc.track_activity now).current_signal = tc.current_signal ∧
    (tc.track_activity now).current_lane = tc.current_lane ∧
    (tc.track_activity now).signal_start_time = tc.signal_start_time ∧
    (tc.track_activity now).lane_a = tc.lane_a ∧
    (tc.track_activity now).lane_b = tc.lane_b ∧
    (tc.track_activity now).idle_timeout = tc.idle_timeout ∧
    (tc.track_activity now).min_green_time = tc.min_green_time ∧
    (tc.track_activity now).max_green_time = tc.max_green_time := by
  unfold track_activity
  split
  · exact ⟨rfl, rfl, rfl, rfl, rfl, rfl, rfl, rfl⟩
  · exact ⟨rfl, rfl, rfl, rfl, rfl, rfl, rfl, rfl⟩

theorem tick_eq_state_machine (tc : TrafficController) (now : ℚ) (ra rb : Option ℚ) :
    tc.tick now ra rb = ((tc.update_sensors ra rb now).track_activity now).state_machine now :=
  rfl

end TrafficController

namespace VL53L0XSensor

theorem get_distance_none (s : VL53L0XSensor) :
    s.get_distance none = s.baseline_distance := by
  by_cases h : s.hasHardware = false <;> simp [get_distance, h]

theorem get_distance_no_hardware (s : VL53L0XSensor) (r : Option ℚ)
    (h : s.hasHardware = false) : s.get_distance r = s.baseline_distance := by
  simp [get_distance, h]

theorem baseline_read_not_present (s : VL53L0XSensor) (r : Option ℚ)
    (hbase : s.get_distance r = s.baseline_distance) (hth : 0 ≤ s.threshold_cm) :
    s.is_vehicle_present r = false := by
  unfold is_vehicle_present
  rw [hbase, decide_eq_false_iff_not, sub_self]
  exact not_lt.mpr hth

theorem hardware_absent_not_present (s : VL53L0XSensor) (r : Option ℚ)
    (hhw : s.hasHardware = false) (hth : 0 ≤ s.threshold_cm) :
    s.is_vehicle_present r = false := by
  refine baseline_read_not_present s r ?_ hth
  simp [get_distance, hhw]

end VL53L0XSensor

namespace LaneMonitor

theorem update_of_present_false (m : LaneMonitor) (r : Option ℚ) (now : ℚ)
    (hp : m.sensor.is_vehicle_present r = false) (hv : m.vehicle_present = false) :
    m.update r now = m := by
  simp [update, hp, hv]

theorem fallingEdgeSpeed_frame (m : LaneMonitor) (now : ℚ) :
    (m.fallingEdgeSpeed now).vehicle_count = m.vehicle_count ∧
    (m.fallingEdgeSpeed now).sensor = m.sensor ∧
    (m.fallingEdgeSpeed now).name = m.name ∧
    (m.fallingEdgeSpeed now).last_vehicle_time = m.last_vehicle_time ∧
    (m.fallingEdgeSpeed now).vehicle_present = m.vehicle_present ∧
    (m.fallingEdgeSpeed now).entry_time = m.entry_time := by
  unfold fallingEdgeSpeed
  split
  · split
    · dsimp only
      split
      · split <;> exact ⟨rfl, rfl, rfl, rfl, rfl, rfl⟩
      · exact ⟨rfl, rfl, rfl, rfl, rfl, rfl⟩
    · exact ⟨rfl, rfl, rfl, rfl, rfl, rfl⟩
  · exact ⟨rfl, rfl, rfl, rfl, rfl, rfl⟩

theorem update_entry_iff_present (m : LaneMonitor) (r : Option ℚ) (now : ℚ)
    (h : m.entry_time.isSome = m.vehicle_present) :
    (m.update r now).entry_time.isSome = (m.update r now).vehicle_present := by
  cases hp : m.sensor.is_vehicle_present r <;> cases hv : m.vehicle_present
  · rw [hv] at h
    simp [update, hp, hv, h]
  · simp [update, hp, hv]
  · simp [update, hp, hv]
  · rw [hv] at h
    simp [update, hp, hv, h]

theorem applyOps_entry_iff_present (m : LaneMonitor) (ops : List LaneOp)
    (h : m.entry_time.isSome = m.vehicle_present) :
    (m.applyOps ops).entry_time.isSome = (m.applyOps ops).vehicle_present := by
  induction ops generalizing m with
  | nil => exact h
  | cons op rest ih =>
    cases op with
    | poll r now => exact ih (m.update r now) (update_entry_iff_present m r now h)
    | reset => exact ih m.reset_count h

theorem update_count_of_not_present (m : LaneMonitor) (r : Option ℚ) (now : ℚ)
    (hp : m.sensor.is_vehicle_present r = false) :
    (m.update r now).vehicle_count = m.vehicle_count ∧
    (m.update r now).sensor = m.sensor := by
  unfold update
  rw [if_neg (by simp [hp])]
  by_cases hv : m.vehicle_present = true
  · rw [if_pos ⟨hp, hv⟩]
    exact ⟨(fallingEdgeSpeed_frame m now).1, (fallingEdgeSpeed_frame m now).2.1⟩
  · rw [if_neg (by simp [hv])]
    exact ⟨rfl, rfl⟩

end LaneMonitor

namespace TrafficController

theorem track_activity_of_zero (tc : TrafficController) (now : ℚ)
    (hca : tc.lane_a.vehicle_count = 0) (hcb : tc.lane_b.vehicle_count = 0) :
    tc.track_activity now = tc := by
  unfold track_activity
  rw [if_neg (by simp [hca, hcb])]

theorem update_sensors_id_of_sim (tc : TrafficController) (ra rb : Option ℚ) (now : ℚ)
    (hA : tc.lane_a.sensor.hasHardware = false)
    (hthA : 0 ≤ tc.lane_a.sensor.threshold_cm)
    (hvA : tc.lane_a.vehicle_present = false)
    (hB : tc.lane_b.sensor.hasHardware = false)
    (hthB : 0 ≤ tc.lane_b.sensor.threshold_cm)
    (hvB : tc.lane_b.vehicle_present = false) :
    tc.update_sensors ra rb now = tc := by
  unfold update_sensors
  rw [LaneMonitor.update_of_present_false _ _ _
      (VL53L0XSensor.hardware_absent_not_present _ _ hA hthA) hvA,
    LaneMonitor.update_of_present_false _ _ _
      (VL53L0XSensor.hardware_absent_not_present _ _ hB hthB) hvB]

theorem init_stages_id (t0 now : ℚ) :
    ((TrafficController.init t0).update_sensors none none now).track_activity now
      = TrafficController.init t0 := by
  have ha : (TrafficController.init t0).lane_a.update none now
      = (TrafficController.init t0).lane_a :=
    LaneMonitor.update_of_present_false _ _ _
      (VL53L0XSensor.hardware_absent_not_present _ _ rfl
        (by norm_num [TrafficController.init, LaneMonitor.init, VL53L0XSensor.initSim])) rfl
  have hb : (TrafficController.init t0).lane_b.update none now
      = (TrafficController.init t0).lane_b :=
    LaneMonitor.update_of_present_false _ _ _
      (VL53L0XSensor.hardware_absent_not_present _ _ rfl
        (by norm_num [TrafficController.init, LaneMonitor.init, VL53L0XSensor.initSim])) rfl
  have hupd : (TrafficController.init t0).update_sensors none none now
      = TrafficController.init t0 := by
    unfold TrafficController.update_sensors
    rw [ha, hb]
  rw [hupd]
  unfold TrafficController.track_activity
  rw [if_neg (by norm_num [TrafficController.init, LaneMonitor.init])]

theorem state_machine_idle (tc : TrafficController) (now : ℚ) (h : tc.idleBranch now) :
    (tc.state_machine now).current_signal = Signal.RED ∧
    (tc.state_machine now).current_lane = tc.current_lane ∧
    (tc.state_machine now).lane_a = tc.lane_a ∧
    (tc.state_machine now).lane_b = tc.lane_b := by
  unfold state_machine
  rw [if_pos h]
  by_cases hs : tc.current_signal = Signal.RED
  · rw [if_neg (not_not_intro hs)]
    exact ⟨hs, rfl, rfl, rfl⟩
  · rw [if_pos hs]
    exact ⟨rfl, rfl, rfl, rfl⟩

theorem state_machine_red_busy_a (tc : TrafficController) (now : ℚ)
    (hni : ¬ tc.idleBranch now) (hsig : tc.current_signal = Signal.RED)
    (hlane : tc.current_lane = Lane.A) (hcnt : 0 < tc.lane_a.vehicle_count) :
    tc.state_machine now =
      { tc with current_signal := Signal.GREEN_A, signal_start_time := now } := by
  unfold state_machine
  rw [if_neg hni]
  simp only [hsig, hlane]
  rw [if_pos hcnt]

theorem state_machine_red_empty_a (tc : TrafficController) (now : ℚ)
    (hni : ¬ tc.idleBranch now) (hsig : tc.current_signal = Signal.RED)
    (hlane : tc.current_lane = Lane.A) (hcnt : tc.lane_a.vehicle_count = 0) :
    tc.state_machine now = { tc with current_lane := Lane.B } := by
  unfold state_machine
  rw [if_neg hni]
  simp only [hsig, hlane]
  rw [if_neg (by simp [hcnt])]

theorem state_machine_red_busy_b (tc : TrafficController) (now : ℚ)
    (hni : ¬ tc.idleBranch now) (hsig : tc.current_signal = Signal.RED)
    (hlane : tc.current_lane = Lane.B) (hcnt : 0 < tc.lane_b.vehicle_count) :
    tc.state_machine now =
      { tc with current_signal := Signal.GREEN_B, signal_start_time := now } := by
  unfold state_machine
  rw [if_neg hni]
  simp only [hsig, hlane]
  rw [if_pos hcnt]

theorem state_machine_red_empty_b (tc : TrafficController) (now : ℚ)
    (hni : ¬ tc.idleBranch now) (hsig : tc.current_signal = Signal.RED)
    (hlane : tc.current_lane = Lane.B) (hcnt : tc.lane_b.vehicle_count = 0) :
    tc.state_machine now = { tc with current_lane := Lane.A } := by
  unfold state_machine
  rw [if_neg hni]
  simp only [hsig, hlane]
  rw [if_neg (by simp [hcnt])]

theorem state_machine_green_a_expired (tc : TrafficController) (now : ℚ)
    (hni : ¬ tc.idleBranch now) (hsig : tc.current_signal = Signal.GREEN_A)
    (hexp : now - tc.signal_start_time ≥ tc.calculate_green_time tc.lane_a.vehicle_count) :
    tc.state_machine now = greenAExpiryReset (greenAExpiryLocked tc) := by
  unfold state_machine
  rw [if_neg hni]
  simp only [hsig]
  rw [if_pos hexp]

theorem state_machine_green_a_running (tc : TrafficController) (now : ℚ)
    (hni : ¬ tc.idleBranch now) (hsig : tc.current_signal = Signal.GREEN_A)
    (hexp : ¬ now - tc.signal_start_time ≥ tc.calculate_green_time tc.lane_a.vehicle_count) :
    tc.state_machine now = tc := by
  unfold state_machine
  rw [if_neg hni]
  simp only [hsig]
  rw [if_neg hexp]

theorem state_machine_green_b_expired (tc : TrafficController) (now : ℚ)
    (hni : ¬ tc.idleBranch now) (hsig : tc.current_signal = Signal.GREEN_B)
    (hexp : now - tc.signal_start_time ≥ tc.calculate_green_time tc.lane_b.vehicle_count) :
    tc.state_machine now = greenBExpiryReset (greenBExpiryLocked tc) := by
  unfold state_machine
  rw [if_neg hni]
  simp only [hsig]
  rw [if_pos hexp]

theorem state_machine_green_b_running (tc : TrafficController) (now : ℚ)
    (hni : ¬ tc.idleBranch now) (hsig : tc.current_signal = Signal.GREEN_B)
    (hexp : ¬ now - tc.signal_start_time ≥ tc.calculate_green_time tc.lane_b.vehicle_count) :
    tc.state_machine now = tc := by
  unfold state_machine
  rw [if_neg hni]
  simp only [hsig]
  rw [if_neg hexp]

/-- One tick of a controller whose two sensors are hardware-less: the
sensors are untouched, the signal stays RED and the counts stay 0. -/
theorem tick_quiescent (tc : TrafficController) (now : ℚ) (ra rb : Option ℚ)
    (hA : tc.lane_a.sensor.hasHardware = false)
    (hB : tc.lane_b.sensor.hasHardware = false)
    (hthA : 0 ≤ tc.lane_a.sensor.threshold_cm)
    (hthB : 0 ≤ tc.lane_b.sensor.threshold_cm)
    (hsig : tc.current_signal = Signal.RED)
    (hca : tc.lane_a.vehicle_count = 0) (hcb : tc.lane_b.vehicle_count = 0) :
    (tc.tick now ra rb).lane_a.sensor = tc.lane_a.sensor ∧
    (tc.tick now ra rb).lane_b.sensor = tc.lane_b.sensor ∧
    (tc.tick now ra rb).current_signal = Signal.RED ∧
    (tc.tick now ra rb).lane_a.vehicle_count = 0 ∧
    (tc.tick now ra rb).lane_b.vehicle_count = 0 := by
  have hpA : tc.lane_a.sensor.is_vehicle_present ra = false :=
    VL53L0XSensor.hardware_absent_not_present _ _ hA hthA
  have hpB : tc.lane_b.sensor.is_vehicle_present rb = false :=
    VL53L0XSensor.hardware_absent_not_present _ _ hB hthB
  have hua := LaneMonitor.update_count_of_not_present tc.lane_a ra now hpA
  have hub := LaneMonitor.update_count_of_not_present tc.lane_b rb now hpB
  have hca1 : (tc.update_sensors ra rb now).lane_a.vehicle_count = 0 := by
    rw [show (tc.update_sensors ra rb now).lane_a = tc.lane_a.update ra now from rfl,
      hua.1, hca]
  have hcb1 : (tc.update_sensors ra rb now).lane_b.vehicle_count = 0 := by
    rw [show (tc.update_sensors ra rb now).lane_b = tc.lane_b.update rb now from rfl,
      hub.1, hcb]
  have hsa1 : (tc.update_sensors ra rb now).lane_a.sensor = tc.lane_a.sensor := hua.2
  have hsb1 : (tc.update_sensors ra rb now).lane_b.sensor = tc.lane_b.sensor := hub.2
  have htick : tc.tick now ra rb = (tc.update_sensors ra rb now).state_machine now := by
    rw [tick_eq_state_machine, track_activity_of_zero _ _ hca1 hcb1]
  have hsig1 : (tc.update_sensors ra rb now).current_signal = Signal.RED := hsig
  rw [htick]
  by_cases hid : (tc.update_sensors ra rb now).idleBranch now
  · have h := state_machine_idle _ now hid
    refine ⟨?_, ?_, h.1, ?_, ?_⟩
    · rw [h.2.2.1]; exact hsa1
    · rw [h.2.2.2]; exact hsb1
    · rw [h.2.2.1]; exact hca1
    · rw [h.2.2.2]; exact hcb1
  · cases hl : (tc.update_sensors ra rb now).current_lane
    · rw [state_machine_red_empty_a _ now hid hsig1 hl hca1]
      exact ⟨hsa1, hsb1, hsig1, hca1, hcb1⟩
    · rw [state_machine_red_empty_b _ now hid hsig1 hl hcb1]
      exact ⟨hsa1, hsb1, hsig1, hca1, hcb1⟩

end TrafficController

/-! ### Claim theorems -/

/-- Claim C1: with the reference constants `min_green_time = 10` and
`max_green_time = 30`, `calculate_green_time c` equals `10 + 2*c`
clamped into `[10, 30]` (the lower clamp never bites for a natural
count), is monotonically non-decreasing in `c`, always lies in
`[10, 30]`, and takes the values 10, 20, 30, 30 at c = 0, 5, 10, 20. -/
theorem C1_calculate_green_time (tc : TrafficController)
    (hmin : tc.min_green_time = 10) (hmax : tc.max_green_time = 30) :
    (∀ c : ℕ, tc.calculate_green_time c = max 10 (min (10 + 2 * (c : ℚ)) 30)) ∧
    (∀ c c' : ℕ, c ≤ c' → tc.calculate_green_time c ≤ tc.calculate_green_time c') ∧
    (∀ c : ℕ, 10 ≤ tc.calculate_green_time c ∧ tc.calculate_green_time c ≤ 30) ∧
    tc.calculate_green_time 0 = 10 ∧ tc.calculate_green_time 5 = 20 ∧
    tc.calculate_green_time 10 = 30 ∧ tc.calculate_green_time 20 = 30 := by
  have hgt : ∀ c : ℕ, tc.calculate_green_time c = min (10 + 2 * (c : ℚ)) 30 := by
    intro c
    simp [TrafficController.calculate_green_time, hmin, hmax]
  have hlow : ∀ c : ℕ, (10 : ℚ) ≤ 10 + 2 * (c : ℚ) := by
    intro c
    have hc : (0 : ℚ) ≤ (c : ℚ) := Nat.cast_nonneg c
    linarith
  refine ⟨?_, ?_, ?_, ?_, ?_, ?_, ?_⟩
  · intro c
    rw [hgt c, eq_comm, max_eq_right]
    exact le_min (hlow c) (by norm_num)
  · intro c c' hcc
    rw [hgt c, hgt c']
    have hle : (c : ℚ) ≤ (c' : ℚ) := by exact_mod_cast hcc
    exact min_le_min (by linarith) le_rfl
  · intro c
    rw [hgt c]
    exact ⟨le_min (hlow c) (by norm_num), min_le_right _ _⟩
  · rw [hgt 0]; norm_num
  · rw [hgt 5]; norm_num
  · rw [hgt 10]; norm_num
  · rw [hgt 20]; norm_num

/-- Claim C1 witness: the theorem applied to the freshly initialised
controller (whose constants are 10 and 30). -/
theorem C1_witness :
    (TrafficController.init 0).calculate_green_time 0 = 10 ∧
    (TrafficController.init 0).calculate_green_time 5 = 20 ∧
    (TrafficController.init 0).calculate_green_time 10 = 30 ∧
    (TrafficController.init 0).calculate_green_time 20 = 30 := by
  have h := C1_calculate_green_time (TrafficController.init 0) rfl rfl
  exact ⟨h.2.2.2.1, h.2.2.2.2.1, h.2.2.2.2.2.1, h.2.2.2.2.2.2⟩

/-- Claim C2: while the signal is GREEN_A (resp. GREEN_B), the green
duration used for the expiry test on a non-idle tick is recomputed from
the lane's live vehicle count at that tick (i.e. after this tick's
sensor update), not frozen at phase entry: the tick transitions to RED
exactly when `now - signal_start_time` has reached
`calculate_green_time` of the current count, so vehicles arriving
during the lane's own green phase extend its allotment up to the cap. -/
theorem C2_green_time_recomputed (tc : TrafficController) (now : ℚ)
    (ra rb : Option ℚ) (u : TrafficController)
    (hu : u = (tc.update_sensors ra rb now).track_activity now)
    (hni : ¬ u.idleBranch now) :
    (u.current_signal = Signal.GREEN_A →
      ((tc.tick now ra rb).current_signal = Signal.RED ↔
        now - u.signal_start_time ≥ u.calculate_green_time u.lane_a.vehicle_count)) ∧
    (u.current_signal = Signal.GREEN_B →
      ((tc.tick now ra rb).current_signal = Signal.RED ↔
        now - u.signal_start_time ≥ u.calculate_green_time u.lane_b.vehicle_count)) := by
  have htick : tc.tick now ra rb = u.state_machine now := by rw [hu]; rfl
  constructor
  · intro hsig
    rw [htick]
    by_cases hexp : now - u.signal_start_time ≥ u.calculate_green_time u.lane_a.vehicle_count
    · rw [TrafficController.state_machine_green_a_expired u now hni hsig hexp]
      simp [TrafficController.greenAExpiryReset, TrafficController.greenAExpiryLocked, hexp]
    · rw [TrafficController.state_machine_green_a_running u now hni hsig hexp, hsig]
      simp [hexp]
  · intro hsig
    rw [htick]
    by_cases hexp : now - u.signal_start_time ≥ u.calculate_green_time u.lane_b.vehicle_count
    · rw [TrafficController.state_machine_green_b_expired u now hni hsig hexp]
      simp [TrafficController.greenBExpiryReset, TrafficController.greenBExpiryLocked, hexp]
    · rw [TrafficController.state_machine_green_b_running u now hni hsig hexp, hsig]
      simp [hexp]

/-- Claim C2 witness: `greenDemoA` is 13 s into its green phase with 5
vehicles now queued (live allotment `min(10+2*5, 30) = 20` s), so the
tick keeps the signal green: 13 s has not reached the re-derived 20 s,
even though it exceeds what a count frozen at a phase-entry value of 1
(12 s) would have allowed. -/
theorem C2_witness :
    (greenDemoA.tick 13 none none).current_signal ≠ Signal.RED := by
  have ha : greenDemoA.lane_a.update none 13 = greenDemoA.lane_a :=
    LaneMonitor.update_of_present_false _ _ _
      (VL53L0XSensor.hardware_absent_not_present _ _ rfl
        (by norm_num [greenDemoA, TrafficController.init, LaneMonitor.init,
          VL53L0XSensor.initSim])) rfl
  have hb : greenDemoA.lane_b.update none 13 = greenDemoA.lane_b :=
    LaneMonitor.update_of_present_false _ _ _
      (VL53L0XSensor.hardware_absent_not_present _ _ rfl
        (by norm_num [greenDemoA, TrafficController.init, LaneMonitor.init,
          VL53L0XSensor.initSim])) rfl
  have hupd : greenDemoA.update_sensors none none 13 = greenDemoA := by
    unfold TrafficController.update_sensors
    rw [ha, hb]
  have hu : (greenDemoA.update_sensors none none 13).track_activity 13
      = { greenDemoA with last_activity_time := 13 } := by
    rw [hupd]
    unfold TrafficController.track_activity
    rw [if_pos (Or.inl (by norm_num [greenDemoA, TrafficController.init, LaneMonitor.init]))]
  have h := (C2_green_time_recomputed greenDemoA 13 none none
      { greenDemoA with last_activity_time := 13 } hu.symm
      (by norm_num [TrafficController.idleBranch, greenDemoA,
        TrafficController.init])).1 rfl
  intro hred
  have hx := h.mp hred
  norm_num [TrafficController.calculate_green_time, greenDemoA,
    TrafficController.init, LaneMonitor.init, min_def] at hx

/-- Claim C3: on a falling presence edge with entry time `t` (nonzero,
as every `time.time()` stamp is) and blocking duration `now - t > 0`,
the speed estimate is `lane_width / (now - t) * 0.036` km/h and it is
appended to `speed_readings` exactly when `10 ≤ estimate ≤ 60`
(inclusive bounds); otherwise the readings are unchanged. -/
theorem C3_speed_filter (m : LaneMonitor) (reading : Option ℚ) (now t : ℚ)
    (hpres : m.vehicle_present = true)
    (hedge : m.sensor.is_vehicle_present reading = false)
    (hentry : m.entry_time = some t)
    (ht : t ≠ 0)
    (hd : 0 < now - t) :
    (m.update reading now).speed_readings =
      if 10 ≤ m.sensor.lane_width_cm / (now - t) * (36 / 1000) ∧
          m.sensor.lane_width_cm / (now - t) * (36 / 1000) ≤ 60 then
        dequeAppend20 m.speed_readings (m.sensor.lane_width_cm / (now - t) * (36 / 1000))
      else m.speed_readings := by
  by_cases hband : 10 ≤ m.sensor.lane_width_cm / (now - t) * (36 / 1000) ∧
      m.sensor.lane_width_cm / (now - t) * (36 / 1000) ≤ 60
  · simp [LaneMonitor.update, LaneMonitor.fallingEdgeSpeed, hedge, hpres, hentry, ht, hd, hband]
  · simp [LaneMonitor.update, LaneMonitor.fallingEdgeSpeed, hedge, hpres, hentry, ht, hd, hband]

/-- Claim C3 witness: a 4 cm width with a 1 s blocking duration gives
0.144 km/h, which is discarded; an estimate of exactly 10 km/h is
appended (inclusive lower bound); 9.99 km/h is rejected. -/
theorem C3_witness :
    (laneDemoSlow.update none 2).speed_readings = [] ∧
    (laneDemoTen.update none 10).speed_readings = [10] ∧
    (laneDemoAlmostTen.update none (23 / 5)).speed_readings = [] := by
  refine ⟨?_, ?_, ?_⟩
  · have h := C3_speed_filter laneDemoSlow none 2 1 rfl
      (by norm_num [laneDemoSlow, LaneMonitor.init, VL53L0XSensor.initSim,
        VL53L0XSensor.is_vehicle_present, VL53L0XSensor.get_distance]) rfl
      (by norm_num) (by norm_num)
    rw [h, if_neg (by norm_num [laneDemoSlow, LaneMonitor.init, VL53L0XSensor.initSim])]
    rfl
  · have h := C3_speed_filter laneDemoTen none 10 1 rfl
      (by norm_num [laneDemoTen, LaneMonitor.init, VL53L0XSensor.initSim,
        VL53L0XSensor.is_vehicle_present, VL53L0XSensor.get_distance]) rfl
      (by norm_num) (by norm_num)
    rw [h, if_pos (by norm_num [laneDemoTen, LaneMonitor.init, VL53L0XSensor.initSim])]
    norm_num [laneDemoTen, LaneMonitor.init, VL53L0XSensor.initSim, dequeAppend20]
  · have h := C3_speed_filter laneDemoAlmostTen none (23 / 5) 1 rfl
      (by norm_num [laneDemoAlmostTen, LaneMonitor.init, VL53L0XSensor.initSim,
        VL53L0XSensor.is_vehicle_present, VL53L0XSensor.get_distance]) rfl
      (by norm_num) (by norm_num)
    rw [h, if_neg (by norm_num [laneDemoAlmostTen, LaneMonitor.init, VL53L0XSensor.initSim])]
    rfl

/-- Claim C4 counterexample: starting from the freshly initialised
controller (RED, `current_lane = A`, both counts 0), the non-idle tick
at `now = 1` leaves the signal RED yet switches `current_lane` from A
to B: `current_lane` does change on a tick where the signal is RED and
remains RED, refuting the claim as stated. -/
theorem C4_counterexample :
    (TrafficController.init 0).current_signal = Signal.RED ∧
    (TrafficController.init 0).current_lane = Lane.A ∧
    ((TrafficController.init 0).tick 1 none none).current_signal = Signal.RED ∧
    ((TrafficController.init 0).tick 1 none none).current_lane = Lane.B := by
  have hsm := TrafficController.state_machine_red_empty_a (TrafficController.init 0) 1
    (by norm_num [TrafficController.idleBranch, TrafficController.init]) rfl rfl rfl
  have ht : (TrafficController.init 0).tick 1 none none
      = { TrafficController.init 0 with current_lane := Lane.B } := by
    rw [TrafficController.tick_eq_state_machine, TrafficController.init_stages_id, hsm]
  exact ⟨rfl, rfl, by rw [ht]; try rfl, by rw [ht]; try rfl⟩

/-- Claim C4 amended: `current_lane` changes on green→red transitions —
to B when GREEN_A expires, to A when GREEN_B expires — and additionally
toggles on a non-idle RED tick whose eligible lane has vehicle count 0
after this tick's sensor update (the signal then staying RED); it never
changes on an idle tick, on a tick where a green phase starts, or while
a green phase continues. -/
theorem C4_lane_change_cases (tc : TrafficController) (now : ℚ)
    (ra rb : Option ℚ) (u : TrafficController)
    (hu : u = (tc.update_sensors ra rb now).track_activity now) :
    (u.idleBranch now → (tc.tick now ra rb).current_lane = tc.current_lane) ∧
    (¬ u.idleBranch now →
      (u.current_signal = Signal.GREEN_A →
        (now - u.signal_start_time ≥ u.calculate_green_time u.lane_a.vehicle_count →
          (tc.tick now ra rb).current_lane = Lane.B ∧
          (tc.tick now ra rb).current_signal = Signal.RED) ∧
        (¬ now - u.signal_start_time ≥ u.calculate_green_time u.lane_a.vehicle_count →
          (tc.tick now ra rb).current_lane = tc.current_lane)) ∧
      (u.current_signal = Signal.GREEN_B →
        (now - u.signal_start_time ≥ u.calculate_green_time u.lane_b.vehicle_count →
          (tc.tick now ra rb).current_lane = Lane.A ∧
          (tc.tick now ra rb).current_signal = Signal.RED) ∧
        (¬ now - u.signal_start_time ≥ u.calculate_green_time u.lane_b.vehicle_count →
          (tc.tick now ra rb).current_lane = tc.current_lane)) ∧
      (u.current_signal = Signal.RED →
        (u.current_lane = Lane.A →
          (0 < u.lane_a.vehicle_count →
            (tc.tick now ra rb).current_lane = tc.current_lane) ∧
          (u.lane_a.vehicle_count = 0 →
            (tc.tick now ra rb).current_lane = Lane.B ∧
            (tc.tick now ra rb).current_signal = Signal.RED ∧
            tc.current_lane = Lane.A)) ∧
        (u.current_lane = Lane.B →
          (0 < u.lane_b.vehicle_count →
            (tc.tick now ra rb).current_lane = tc.current_lane) ∧
          (u.lane_b.vehicle_count = 0 →
            (tc.tick now ra rb).current_lane = Lane.A ∧
            (tc.tick now ra rb).current_signal = Signal.RED ∧
            tc.current_lane = Lane.B)))) := by
  have htick : tc.tick now ra rb = u.state_machine now := by rw [hu]; rfl
  have hlane : u.current_lane = tc.current_lane := by
    rw [hu, (TrafficController.track_activity_frame _ _).2.1]
    rfl
  refine ⟨?_, ?_⟩
  · intro hidle
    rw [htick, (TrafficController.state_machine_idle u now hidle).2.1]
    exact hlane
  · intro hni
    refine ⟨?_, ?_, ?_⟩
    · intro hsig
      constructor
      · intro hexp
        rw [htick, TrafficController.state_machine_green_a_expired u now hni hsig hexp]
        exact ⟨rfl, rfl⟩
      · intro hexp
        rw [htick, TrafficController.state_machine_green_a_running u now hni hsig hexp]
        exact hlane
    · intro hsig
      constructor
      · intro hexp
        rw [htick, TrafficController.state_machine_green_b_expired u now hni hsig hexp]
        exact ⟨rfl, rfl⟩
      · intro hexp
        rw [htick, TrafficController.state_machine_green_b_running u now hni hsig hexp]
        exact hlane
    · intro hsig
      constructor
      · intro hl
        constructor
        · intro hcnt
          rw [htick, TrafficController.state_machine_red_busy_a u now hni hsig hl hcnt]
          exact hlane
        · intro hcnt
          rw [htick, TrafficController.state_machine_red_empty_a u now hni hsig hl hcnt]
          exact ⟨rfl, hsig, hlane.symm.trans hl⟩
      · intro hl
        constructor
        · intro hcnt
          rw [htick, TrafficController.state_machine_red_busy_b u now hni hsig hl hcnt]
          exact hlane
        · intro hcnt
          rw [htick, TrafficController.state_machine_red_empty_b u now hni hsig hl hcnt]
          exact ⟨rfl, hsig, hlane.symm.trans hl⟩

/-- Claim C4 witness: the amended theorem applied to the initial
controller at `now = 1` — the eligible lane A is empty, so the tick
toggles eligibility to B while the signal stays RED. -/
theorem C4_witness :
    ((TrafficController.init 0).tick 1 none none).current_lane = Lane.B ∧
    ((TrafficController.init 0).tick 1 none none).current_signal = Signal.RED := by
  have h := C4_lane_change_cases (TrafficController.init 0) 1 none none
    (TrafficController.init 0) (TrafficController.init_stages_id 0 1).symm
  have h2 := (((h.2 (by norm_num [TrafficController.idleBranch,
    TrafficController.init])).2.2 rfl).1 rfl).2 rfl
  exact ⟨h2.1, h2.2.1⟩

/-- Claim C5: on any tick taking the idle branch (time since
`last_activity_time` — after this tick's activity tracking — exceeds
`idle_timeout`), the controller forces the signal to RED if it is not
already RED and otherwise holds RED, performs no lane-eligibility
alternation (`current_lane` unchanged), and resets neither lane's
vehicle count (both counts equal those of the post-sensor-update
state `u`). -/
theorem C5_idle_holds_red (tc : TrafficController) (now : ℚ)
    (ra rb : Option ℚ) (u : TrafficController)
    (hu : u = (tc.update_sensors ra rb now).track_activity now)
    (hidle : u.idleBranch now) :
    (tc.tick now ra rb).current_signal = Signal.RED ∧
    (tc.tick now ra rb).current_lane = tc.current_lane ∧
    (tc.tick now ra rb).lane_a.vehicle_count = u.lane_a.vehicle_count ∧
    (tc.tick now ra rb).lane_b.vehicle_count = u.lane_b.vehicle_count := by
  have htick : tc.tick now ra rb = u.state_machine now := by rw [hu]; rfl
  have h := TrafficController.state_machine_idle u now hidle
  have hlane : u.current_lane = tc.current_lane := by
    rw [hu, (TrafficController.track_activity_frame _ _).2.1]
    rfl
  rw [htick]
  exact ⟨h.1, h.2.1.trans hlane, by rw [h.2.2.1], by rw [h.2.2.2]⟩

/-- Claim C5 witness: the initial controller ticked at `now = 100`
(idle duration 100 s > 90 s): the signal holds RED, the eligible lane
stays A and the counts stay 0. -/
theorem C5_witness :
    ((TrafficController.init 0).tick 100 none none).current_signal = Signal.RED ∧
    ((TrafficController.init 0).tick 100 none none).current_lane = Lane.A ∧
    ((TrafficController.init 0).tick 100 none none).lane_a.vehicle_count = 0 ∧
    ((TrafficController.init 0).tick 100 none none).lane_b.vehicle_count = 0 := by
  have h := C5_idle_holds_red (TrafficController.init 0) 100 none none
    (TrafficController.init 0) (TrafficController.init_stages_id 0 100).symm
    (by norm_num [TrafficController.idleBranch, TrafficController.init])
  exact ⟨h.1, h.2.1.trans rfl, h.2.2.1.trans rfl, h.2.2.2.trans rfl⟩

/-- Claim C6: `reset_count` zeroes `vehicle_count` and changes no other
LaneMonitor field — in particular `speed_readings` is untouched;
consequently, when GREEN_A expires on a non-idle tick, lane A's count
becomes 0, `current_lane` becomes B, the signal becomes RED, and lane
A's speed history (`speed_readings`, hence `get_average_speed`) is
exactly what it was before the transition (the post-sensor-update
state `u`). -/
theorem C6_reset_count_frame (m : LaneMonitor) (tc : TrafficController) (now : ℚ)
    (ra rb : Option ℚ) (u : TrafficController)
    (hu : u = (tc.update_sensors ra rb now).track_activity now)
    (hni : ¬ u.idleBranch now)
    (hsig : u.current_signal = Signal.GREEN_A)
    (hexp : now - u.signal_start_time ≥ u.calculate_green_time u.lane_a.vehicle_count) :
    (m.reset_count.vehicle_count = 0 ∧
     m.reset_count.speed_readings = m.speed_readings ∧
     m.reset_count.name = m.name ∧
     m.reset_count.sensor = m.sensor ∧
     m.reset_count.last_vehicle_time = m.last_vehicle_time ∧
     m.reset_count.vehicle_present = m.vehicle_present ∧
     m.reset_count.entry_time = m.entry_time) ∧
    ((tc.tick now ra rb).lane_a.vehicle_count = 0 ∧
     (tc.tick now ra rb).current_lane = Lane.B ∧
     (tc.tick now ra rb).current_signal = Signal.RED ∧
     (tc.tick now ra rb).lane_a.speed_readings = u.lane_a.speed_readings ∧
     (tc.tick now ra rb).lane_a.get_average_speed = u.lane_a.get_average_speed) := by
  have htick : tc.tick now ra rb = u.state_machine now := by rw [hu]; rfl
  refine ⟨⟨rfl, rfl, rfl, rfl, rfl, rfl, rfl⟩, ?_⟩
  rw [htick, TrafficController.state_machine_green_a_expired u now hni hsig hexp]
  exact ⟨rfl, rfl, rfl, rfl, rfl⟩

/-- Claim C6 witness: `greenDemoExpired` (GREEN_A, 3 vehicles, 20 s
elapsed ≥ 16 s allotment, speed history `[25]`): after the tick the
count is 0, lane B is eligible, and the speed history is still
`[25]`. -/
theorem C6_witness :
    ((greenDemoExpired.tick 20 none none).lane_a.vehicle_count = 0 ∧
     (greenDemoExpired.tick 20 none none).current_lane = Lane.B ∧
     (greenDemoExpired.tick 20 none none).current_signal = Signal.RED ∧
     (greenDemoExpired.tick 20 none none).lane_a.speed_readings = [25]) := by
  have ha : greenDemoExpired.lane_a.update none 20 = greenDemoExpired.lane_a :=
    LaneMonitor.update_of_present_false _ _ _
      (VL53L0XSensor.hardware_absent_not_present _ _ rfl
        (by norm_num [greenDemoExpired, TrafficController.init, LaneMonitor.init,
          VL53L0XSensor.initSim])) rfl
  have hb : greenDemoExpired.lane_b.update none 20 = greenDemoExpired.lane_b :=
    LaneMonitor.update_of_present_false _ _ _
      (VL53L0XSensor.hardware_absent_not_present _ _ rfl
        (by norm_num [greenDemoExpired, TrafficController.init, LaneMonitor.init,
          VL53L0XSensor.initSim])) rfl
  have hupd : greenDemoExpired.update_sensors none none 20 = greenDemoExpired := by
    unfold TrafficController.update_sensors
    rw [ha, hb]
  have hu : (greenDemoExpired.update_sensors none none 20).track_activity 20
      = { greenDemoExpired with last_activity_time := 20 } := by
    rw [hupd]
    unfold TrafficController.track_activity
    rw [if_pos (Or.inl (by norm_num [greenDemoExpired, TrafficController.init,
      LaneMonitor.init]))]
  have h := C6_reset_count_frame greenDemoExpired.lane_a greenDemoExpired 20 none none
    { greenDemoExpired with last_activity_time := 20 } hu.symm
    (by norm_num [TrafficController.idleBranch, greenDemoExpired, TrafficController.init])
    rfl
    (by norm_num [TrafficController.calculate_green_time, greenDemoExpired,
      TrafficController.init, LaneMonitor.init, min_def])
  exact ⟨h.2.1, h.2.2.1, h.2.2.2.1, h.2.2.2.2.1.trans rfl⟩

/-- Claim C7: when the distance source is unavailable (no sensor
object) or a read raises (`r = none`), the distance read falls back to
`baseline_distance`, giving a distance drop of 0, which is not greater
than the (non-negative) threshold, so `is_vehicle_present` returns
false on every call; hence no vehicle is ever counted and a controller
that starts RED with empty lanes and hardware-less sensors stays RED
with zero counts over any schedule of ticks.  `update` and `tick` are
total functions of the read outcome, so no sensor error propagates out
of them. -/
theorem C7_sensor_failure_safe :
    (∀ (s : VL53L0XSensor) (r : Option ℚ),
      s.hasHardware = false ∨ r = none →
      s.get_distance r = s.baseline_distance) ∧
    (∀ (s : VL53L0XSensor) (r : Option ℚ), 0 ≤ s.threshold_cm →
      s.hasHardware = false ∨ r = none →
      s.is_vehicle_present r = false) ∧
    (∀ (tc : TrafficController) (sched : List (ℚ × Option ℚ × Option ℚ)),
      tc.lane_a.sensor.hasHardware = false →
      tc.lane_b.sensor.hasHardware = false →
      0 ≤ tc.lane_a.sensor.threshold_cm →
      0 ≤ tc.lane_b.sensor.threshold_cm →
      tc.current_signal = Signal.RED →
      tc.lane_a.vehicle_count = 0 →
      tc.lane_b.vehicle_count = 0 →
      (tc.ticks sched).current_signal = Signal.RED ∧
      (tc.ticks sched).lane_a.vehicle_count = 0 ∧
      (tc.ticks sched).lane_b.vehicle_count = 0) := by
  refine ⟨?_, ?_, ?_⟩
  · rintro s r (h | rfl)
    · exact VL53L0XSensor.get_distance_no_hardware s r h
    · exact VL53L0XSensor.get_distance_none s
  · rintro s r hth (h | rfl)
    · exact VL53L0XSensor.hardware_absent_not_present s r h hth
    · exact VL53L0XSensor.baseline_read_not_present s none
        (VL53L0XSensor.get_distance_none s) hth
  · intro tc sched
    induction sched generalizing tc with
    | nil =>
      intro h1 h2 h3 h4 h5 h6 h7
      exact ⟨h5, h6, h7⟩
    | cons e rest ih =>
      intro h1 h2 h3 h4 h5 h6 h7
      have h := TrafficController.tick_quiescent tc e.1 e.2.1 e.2.2 h1 h2 h3 h4 h5 h6 h7
      exact ih (tc.tick e.1 e.2.1 e.2.2)
        (by rw [h.1]; exact h1) (by rw [h.2.1]; exact h2)
        (by rw [h.1]; exact h3) (by rw [h.2.1]; exact h4)
        h.2.2.1 h.2.2.2.1 h.2.2.2.2

/-- Claim C7 witness: a simulation-mode sensor reads "not present" even
for a raw reading far below baseline, and a hardware-less controller
stays RED with zero counts over a two-tick schedule. -/
theorem C7_witness :
    (VL53L0XSensor.initSim 4).is_vehicle_present (some 5) = false ∧
    ((TrafficController.init 0).ticks
        [(1, none, none), (2, some 5, none)]).current_signal = Signal.RED ∧
    ((TrafficController.init 0).ticks
        [(1, none, none), (2, some 5, none)]).lane_a.vehicle_count = 0 := by
  obtain ⟨h1, h2, h3⟩ := C7_sensor_failure_safe
  have hs := h3 (TrafficController.init 0) [(1, none, none), (2, some 5, none)]
    rfl rfl
    (by norm_num [TrafficController.init, LaneMonitor.init, VL53L0XSensor.initSim])
    (by norm_num [TrafficController.init, LaneMonitor.init, VL53L0XSensor.initSim])
    rfl rfl rfl
  exact ⟨h2 _ _ (by norm_num [VL53L0XSensor.initSim]) (Or.inl rfl), hs.1, hs.2.1⟩

/-- Claim C8: from the initial state, after any sequence of `update`
and `reset_count` calls, `entry_time` is non-`None` exactly when
`vehicle_present` is true; a rising edge sets both (`entry_time = some
now`, presence true), a falling edge clears both regardless of whether
the speed estimate was accepted, an edge-free `update` changes nothing
at all, and `reset_count` touches neither field. -/
theorem C8_entry_iff_present :
    (∀ (name : String) (s : VL53L0XSensor) (ops : List LaneOp),
      ((LaneMonitor.init name s).applyOps ops).entry_time.isSome
        = ((LaneMonitor.init name s).applyOps ops).vehicle_present) ∧
    (∀ (m : LaneMonitor) (r : Option ℚ) (now : ℚ),
      m.sensor.is_vehicle_present r = true → m.vehicle_present = false →
      (m.update r now).vehicle_present = true ∧
      (m.update r now).entry_time = some now) ∧
    (∀ (m : LaneMonitor) (r : Option ℚ) (now : ℚ),
      m.sensor.is_vehicle_present r = false → m.vehicle_present = true →
      (m.update r now).vehicle_present = false ∧
      (m.update r now).entry_time = none) ∧
    (∀ (m : LaneMonitor) (r : Option ℚ) (now : ℚ),
      m.sensor.is_vehicle_present r = m.vehicle_present →
      m.update r now = m) ∧
    (∀ m : LaneMonitor,
      m.reset_count.vehicle_present = m.vehicle_present ∧
      m.reset_count.entry_time = m.entry_time) := by
  refine ⟨?_, ?_, ?_, ?_, ?_⟩
  · intro name s ops
    exact LaneMonitor.applyOps_entry_iff_present _ ops rfl
  · intro m r now h1 h2
    constructor <;> simp [LaneMonitor.update, h1, h2]
  · intro m r now h1 h2
    constructor <;> simp [LaneMonitor.update, h1, h2]
  · intro m r now h
    cases hv : m.vehicle_present <;> rw [hv] at h <;> simp [LaneMonitor.update, h, hv]
  · intro m
    exact ⟨rfl, rfl⟩

/-- Claim C8 witness: a live sensor drives a rising edge (reading 50
against baseline 100), then a falling edge, then a reset; the invariant
holds at the end, and the rising edge sets `vehicle_present` and
`entry_time = some 1`. -/
theorem C8_witness :
    ((LaneMonitor.init "Lane A" sensorLive).applyOps
        [LaneOp.poll (some 50) 1, LaneOp.poll (some 100) 2,
          LaneOp.reset]).entry_time.isSome
      = ((LaneMonitor.init "Lane A" sensorLive).applyOps
        [LaneOp.poll (some 50) 1, LaneOp.poll (some 100) 2,
          LaneOp.reset]).vehicle_present ∧
    ((LaneMonitor.init "Lane A" sensorLive).update (some 50) 1).vehicle_present = true ∧
    ((LaneMonitor.init "Lane A" sensorLive).update (some 50) 1).entry_time = some 1 := by
  obtain ⟨h1, h2, h3, h4, h5⟩ := C8_entry_iff_present
  have hr := h2 (LaneMonitor.init "Lane A" sensorLive) (some 50) 1
    (by norm_num [sensorLive, LaneMonitor.init, VL53L0XSensor.is_vehicle_present,
      VL53L0XSensor.get_distance]) rfl
  exact ⟨h1 "Lane A" sensorLive _, hr.1, hr.2⟩

/-- Claim C10: the activity tracking at the top of each tick refreshes
`last_activity_time` to the tick time whenever either lane's
post-update count is nonzero, and it runs before the idle check;
consequently (for a non-negative idle timeout) the forced-RED idle
branch can only be taken on a tick where both post-update counts are
zero — the idle timeout never fires while a lane still has queued
vehicles, and an arrival resets the idle clock on the same tick. -/
theorem C10_activity_before_idle (tc : TrafficController) (now : ℚ)
    (ra rb : Option ℚ) (u1 : TrafficController)
    (hu1 : u1 = tc.update_sensors ra rb now)
    (htm : 0 ≤ tc.idle_timeout) :
    (0 < u1.lane_a.vehicle_count ∨ 0 < u1.lane_b.vehicle_count →
      (u1.track_activity now).last_activity_time = now) ∧
    ((u1.track_activity now).idleBranch now →
      u1.lane_a.vehicle_count = 0 ∧ u1.lane_b.vehicle_count = 0) := by
  have hrefresh : 0 < u1.lane_a.vehicle_count ∨ 0 < u1.lane_b.vehicle_count →
      (u1.track_activity now).last_activity_time = now := by
    intro h
    unfold TrafficController.track_activity
    rw [if_pos h]
  refine ⟨hrefresh, ?_⟩
  intro hid
  have etm : (u1.track_activity now).idle_timeout = tc.idle_timeout := by
    rw [(TrafficController.track_activity_frame _ _).2.2.2.2.2.1, hu1]
    rfl
  by_cases ha : u1.lane_a.vehicle_count = 0
  · by_cases hb : u1.lane_b.vehicle_count = 0
    · exact ⟨ha, hb⟩
    · exfalso
      have hlast := hrefresh (Or.inr (Nat.pos_of_ne_zero hb))
      unfold TrafficController.idleBranch at hid
      rw [hlast, etm] at hid
      linarith
  · exfalso
    have hlast := hrefresh (Or.inl (Nat.pos_of_ne_zero ha))
    unfold TrafficController.idleBranch at hid
    rw [hlast, etm] at hid
    linarith

/-- Claim C10 witness: `greenDemoA` has 5 vehicles on lane A, so the
tick at `now = 7` refreshes `last_activity_time` to 7 before the idle
check. -/
theorem C10_witness :
    ((greenDemoA.update_sensors none none 7).track_activity 7).last_activity_time = 7 := by
  have hupd : greenDemoA.update_sensors none none 7 = greenDemoA :=
    TrafficController.update_sensors_id_of_sim greenDemoA none none 7
      rfl
      (by norm_num [greenDemoA, TrafficController.init, LaneMonitor.init,
        VL53L0XSensor.initSim])
      rfl rfl
      (by norm_num [greenDemoA, TrafficController.init, LaneMonitor.init,
        VL53L0XSensor.initSim])
      rfl
  have h := C10_activity_before_idle greenDemoA 7 none none
    (greenDemoA.update_sensors none none 7) rfl
    (by norm_num [greenDemoA, TrafficController.init])
  exact h.1 (Or.inl (by
    rw [hupd]
    norm_num [greenDemoA, TrafficController.init, LaneMonitor.init]))

/-- Claim C9 (refuted — code bug): in the GREEN_A expiry branch the
source performs `current_signal = "RED"; current_lane = 'B'` inside
`with self.lock` but calls `self.lane_a.reset_count()` only after that
block exits, so the tick factors as `greenAExpiryReset ∘
greenAExpiryLocked` with the lock released in between.  A reader that
acquires the lock in `get_current_state()` at that point observes the
half-updated combination `signal = RED` with the served lane's count
still 3 — exactly what the claim says is never observed.  (Only the
completed tick shows the count reset to 0.) -/
theorem C9_reset_outside_lock :
    greenDemoExpired.tick 20 none none
      = TrafficController.greenAExpiryReset
          (TrafficController.greenAExpiryLocked
            { greenDemoExpired with last_activity_time := 20 }) ∧
    (TrafficController.greenAExpiryLocked
        { greenDemoExpired with last_activity_time := 20 }).get_current_state.signal
      = Signal.RED ∧
    (TrafficController.greenAExpiryLocked
        { greenDemoExpired with last_activity_time := 20 }).get_current_state.laneA_count
      = 3 ∧
    (greenDemoExpired.tick 20 none none).lane_a.vehicle_count = 0 := by
  have hupd : greenDemoExpired.update_sensors none none 20 = greenDemoExpired :=
    TrafficController.update_sensors_id_of_sim greenDemoExpired none none 20
      rfl
      (by norm_num [greenDemoExpired, TrafficController.init, LaneMonitor.init,
        VL53L0XSensor.initSim])
      rfl rfl
      (by norm_num [greenDemoExpired, TrafficController.init, LaneMonitor.init,
        VL53L0XSensor.initSim])
      rfl
  have hu : (greenDemoExpired.update_sensors none none 20).track_activity 20
      = { greenDemoExpired with last_activity_time := 20 } := by
    rw [hupd]
    unfold TrafficController.track_activity
    rw [if_pos (Or.inl (by norm_num [greenDemoExpired, TrafficController.init,
      LaneMonitor.init]))]
  have ht : greenDemoExpired.tick 20 none none
      = TrafficController.greenAExpiryReset (TrafficController.greenAExpiryLocked
          { greenDemoExpired with last_activity_time := 20 }) := by
    rw [TrafficController.tick_eq_state_machine, hu,
      TrafficController.state_machine_green_a_expired _ 20
        (by norm_num [TrafficController.idleBranch, greenDemoExpired,
          TrafficController.init])
        rfl
        (by norm_num [TrafficController.calculate_green_time, greenDemoExpired,
          TrafficController.init, LaneMonitor.init, min_def])]
  exact ⟨ht, rfl, rfl, by rw [ht]; rfl⟩

end Traffic
